import Mathlib

/-!
Verification development for the sentiment classification / aligned text
generation pipeline of app.py (AI Sentiment Text Generator).

The pipeline consists of:
  - get_sentiment (the classifier): builds a classification instruction,
    issues a schema-constrained remote model call, parses the structured
    JSON response, and extracts the sentiment field; every exception is
    caught inside the function and turned into the default label "neutral".
  - generate_sentiment_aligned_text (the generator): normalizes the style
    mode, assembles a generation instruction from fixed text fragments, the
    sentiment, the word count, few-shot exemplars and the original prompt,
    issues a free-text remote model call, and returns the trimmed response;
    every exception is caught inside and turned into a fixed fallback string.

Both functions are wrapped by the tenacity decorator
retry(stop=stop_after_attempt(3), wait=wait_exponential(multiplier=1, min=4, max=10)),
which re-invokes the wrapped function when it raises, up to 3 attempts.

Remote model behaviour is abstracted as an oracle: a function from the
instruction text and the attempt index to the outcome of that remote call
(an API error, or a response with its text and, for the classifier, the
result of JSON-parsing that text). Machine effects (waiting, caching via
st.cache_data, streamlit warnings) do not influence the returned values and
are not modelled.
-/

/-- Embeds Python str.upper, applied characterwise (the strings the program
uppercases are ASCII). -/
def pyUpper (s : String) : String := ⟨s.data.map Char.toUpper⟩

/-- Embeds Python str.lower, applied characterwise. -/
def pyLower (s : String) : String := ⟨s.data.map Char.toLower⟩

/-- Embeds Python str.strip with no arguments: remove whitespace from both
ends of the string. -/
def pyStrip (s : String) : String :=
  ⟨((s.data.dropWhile Char.isWhitespace).reverse.dropWhile Char.isWhitespace).reverse⟩

/-- Worker for pyReplace: replace each non-overlapping occurrence of pat,
scanning left to right. Fuel is bounded by the length of the scanned list;
each step consumes at least one character, so fuel never runs out when
started at the list length. -/
def pyReplaceAux (pat repl : List Char) : Nat → List Char → List Char
  | _, [] => []
  | 0, s => s
  | Nat.succ fuel, c :: cs =>
    if List.isPrefixOf pat (c :: cs) then
      repl ++ pyReplaceAux pat repl fuel (List.drop (pat.length - 1) cs)
    else
      c :: pyReplaceAux pat repl fuel cs

/-- Embeds Python str.replace: replace all non-overlapping occurrences of
pat by repl, left to right. -/
def pyReplace (s pat repl : String) : String :=
  ⟨pyReplaceAux pat.data repl.data s.data.length s.data⟩

/-- The stop bound of the tenacity decorator on both remote-calling
functions: stop_after_attempt(3). -/
def stop_after_attempt : Nat := 3

/-- Embeds the tenacity retry decorator: run op on attempt indices i, i+1, ...
until it returns normally or the given number of attempts is used up; the
final exception is re-raised after the last attempt. Returns the final
outcome together with the number of attempts actually made. The backoff
waits between attempts do not influence the returned value. -/
def retryCall {α : Type} (op : Nat → Except Unit α) : Nat → Nat → Except Unit α × Nat
  | _, 0 => (Except.error (), 0)
  | i, Nat.succ rem =>
    match op i with
    | Except.ok a => (Except.ok a, 1)
    | Except.error e =>
      if rem = 0 then (Except.error e, 1)
      else
        ((retryCall op (i + 1) rem).1, (retryCall op (i + 1) rem).2 + 1)

/-- Embeds tenacity wait_exponential(multiplier=1, min=4, max=10): the wait
before re-attempt number k (k counted from 0) in seconds. -/
def wait_exponential (mult lo hi k : Nat) : Nat :=
  Nat.min hi (Nat.max lo (mult * 2 ^ k))

/-- Result of json.loads on the classifier response text, as far as the
program inspects it: a decode failure, a JSON value that is not an object
(so that .get raises AttributeError), or an object with an optional
"sentiment" field. -/
inductive ParsedJson : Type where
  | decodeError : ParsedJson
  | nonObject : ParsedJson
  | obj : Option String → ParsedJson

/-- Outcome of one remote classification call: the call raises, or it
returns a response whose .text is the given string and whose JSON parse
result is the given ParsedJson. -/
inductive ClassifyOutcome : Type where
  | apiError : ClassifyOutcome
  | response : String → ParsedJson → ClassifyOutcome

/-- The classification instruction built by get_sentiment. -/
def sentiment_prompt (text : String) : String :=
  "\n    Classify the sentiment of the following text as exactly one of: positive, negative, neutral.\n    \n    Text: " ++ text ++ "\n    "

/-- The enumeration of the response schema sent with the classification
call: the remote side is asked to restrict the sentiment field to these
three values. -/
def json_schema_enum : List String := ["positive", "negative", "neutral"]

/-- One invocation of the body of get_sentiment (the function the retry
decorator wraps), given the oracle for the remote model. Returns the value
together with the number of remote calls issued by this invocation. Every
exception raised inside the try block (API error, empty response,
json.JSONDecodeError, AttributeError from .get on a non-object) is caught
by the catch-all except clause, which returns the string "neutral"; hence
the body never raises, which the Except type records as always returning ok. -/
def get_sentiment_body (text : String) (oracle : String → Nat → ClassifyOutcome)
    (i : Nat) : Except Unit (String × Nat) :=
  if (pyStrip text).length < 3 then
    Except.ok ("neutral", 0)
  else
    match oracle (sentiment_prompt text) i with
    | ClassifyOutcome.apiError => Except.ok ("neutral", 1)
    | ClassifyOutcome.response rtext parsed =>
      if pyStrip rtext = "" then
        Except.ok ("neutral", 1)
      else
        match parsed with
        | ParsedJson.decodeError => Except.ok ("neutral", 1)
        | ParsedJson.nonObject => Except.ok ("neutral", 1)
        | ParsedJson.obj none => Except.ok ("neutral", 1)
        | ParsedJson.obj (some s) => Except.ok (pyLower s, 1)

/-- get_sentiment as seen by the caller: the body wrapped in the tenacity
retry decorator (the outer st.cache_data memoization does not change the
value of a call and is not modelled). The result pairs the outcome of the
decorated call with the number of attempts the decorator made. -/
def get_sentiment (text : String) (oracle : String → Nat → ClassifyOutcome) :
    Except Unit (String × Nat) × Nat :=
  retryCall (get_sentiment_body text oracle) 0 stop_after_attempt

/-- Outcome of one remote generation call: the call raises, or it returns a
response whose .text is the given string. -/
inductive GenOutcome : Type where
  | apiError : GenOutcome
  | response : String → GenOutcome

/-- Style-mode normalization of generate_sentiment_aligned_text:
style_mode.upper().replace(" (FUN & EMOJIS)", "").strip(). -/
def normalize_style (style_mode : String) : String :=
  pyStrip (pyReplace (pyUpper style_mode) " (FUN & EMOJIS)" "")

/-- The base_instructions f-string of generate_sentiment_aligned_text:
task framing (paragraph below 150 words, short essay otherwise), tone
directive naming the sentiment, length directive, structure directive. -/
def base_instructions (sentiment : String) (word_count : Nat) : String :=
  "\n    Task: Generate a coherent " ++ (if word_count < 150 then "paragraph" else "short essay") ++ " based on the original prompt.\n    - Strictly maintain " ++ sentiment ++ " tone.\n    - Exactly " ++ toString word_count ++ " words (±20).\n    - Engaging and natural; structure: Start with a hook related to the prompt, develop 2-3 key ideas, and end with a reflective close.\n    "

/-- The flair f-string of the ELI10 branch. -/
def eli10_flair : String :=
  "\n        - In ELI10 style: Explain like you\x27re talking to a 10-year-old—use simple words, short sentences, fun examples, and easy ideas anyone can get. Avoid big words or boring facts; make it feel like a story or chat with a kid.\n        "

/-- The sentiment-specific extra_flair selection of the ELI10 branch:
an if / elif / else chain whose final branch covers the neutral label and
every other sentiment string. -/
def eli10_extra_flair (sentiment : String) : String :=
  if sentiment = "positive" then
    "Add 3-5 fun jokes or puns to make it hilarious, and sprinkle in lots of excited emojis (like 😄, 🚀, 🎉) throughout to amp up the joy!"
  else if sentiment = "negative" then
    "Weave in 2-3 dark humor jokes or ironic twists to heighten the gloom, and use grumpy/sad emojis (like 😞, 🌧️, 💔) to match the vibe."
  else
    "Keep it balanced with 2-3 light, observational jokes if they fit naturally, and add neutral emojis (like 📖, 🌤️, 🤔) sparingly for visual pop."

/-- The extra_flair string of the Normal branch. -/
def normal_extra_flair : String :=
  "\n        - Use a formal, professional tone suitable for adults: Clear, concise language with varied sentence structure. No slang, jokes, or emojis.\n        "

/-- get_eli10_examples: lookup in the ELI10 example dict with
examples.get(sentiment, examples["neutral"]); the "neutral" key and the
missing-key default both yield the neutral entry, so they share the final
branch here. -/
def get_eli10_examples (sentiment : String) : String :=
  if sentiment = "positive" then
    "\n    - Original (positive): \"I love sunny days at the beach.\"\n      Generated (positive): \"Imagine the sun smiling down on the beach, making everything warm and sparkly like a giant hug from the sky 😄! You can splash in the waves that tickle your toes and build the tallest sandcastles ever—watch out, or the tide might say, \x27Hey, that\x27s my moat!\x27 😂. Kids everywhere are giggling and chasing seagulls—it\x27s like the world\x27s best playground 🎉! And at the end of the day, as the sun says goodnight with pretty colors, you feel super happy inside, ready for more adventures tomorrow 🚀. Why did the beach ball go to school? To get a little \x27shore\x27 education! 🌅\"\n        "
  else if sentiment = "negative" then
    "\n    - Original (negative): \"Traffic jams ruin my commute.\"\n      Generated (negative): \"Ugh, picture being stuck in a huge line of cars, like a boring game where nobody moves 😞. The engine grumbles like a grumpy monster, and the clock just laughs at you while time drags on forever—talk about a \x27traffic\x27 light that never turns green! 🌧️. Horns beep like angry birds, and you\x27re trapped with nowhere to go, making everything feel extra yucky and slow 💔. It\x27s like the cars are having a never-ending staring contest. Why don\x27t traffic jams ever break up? They\x27re just too \x27jammed\x27 together! 😤 At least when you finally get home, you can sigh and say, \x27Better luck tomorrow... maybe.\x27\"\n        "
  else
    "\n    - Original (neutral): \"The weather today is mild.\"\n      Generated (neutral): \"Today\x27s weather is just right, not too hot or too cold—like wearing your favorite cozy sweater outside 🌤️. Clouds float by like fluffy sheep, and the breeze is gentle, perfect for kicking a ball or reading a book under a tree 📖. It\x27s a normal day where you can do whatever you want without sweating or shivering, keeping things simple and easy 🤔. Why did the cloud go to school? To get a little \x27higher\x27 education! ☁️ Either way, it\x27s a chill day—no drama, just steady and nice, like your best buddy who\x27s always there without stealing the show.\"\n        "

/-- get_normal_examples: lookup in the Normal example dict with
examples.get(sentiment, examples["neutral"]); the "neutral" key and the
missing-key default both yield the neutral entry, so they share the final
branch here. -/
def get_normal_examples (sentiment : String) : String :=
  if sentiment = "positive" then
    "\n    - Original (positive): \"I love sunny days at the beach.\"\n      Generated (positive): \"Sunny days at the beach evoke a profound sense of joy and relaxation. The golden sunlight bathes the shoreline in warmth, creating an ideal setting for leisurely walks along the water\x27s edge. Families gather to enjoy the rhythmic crash of waves, while the gentle sea breeze carries the faint scent of salt and sunscreen. Such moments remind us of nature\x27s ability to recharge the spirit, fostering connections with loved ones and inspiring a deeper appreciation for life\x27s simple pleasures.\"\n        "
  else if sentiment = "negative" then
    "\n    - Original (negative): \"Traffic jams ruin my commute.\"\n      Generated (negative): \"Traffic jams transform an ordinary commute into an exasperating ordeal, marked by stagnation and mounting irritation. Vehicles inch forward amid the cacophony of impatient horns, while exhaust fumes thicken the air, amplifying the sense of confinement. Precious time slips away in this involuntary standstill, disrupting schedules and eroding productivity. Ultimately, these delays underscore the vulnerabilities of urban mobility, leaving commuters drained and resentful upon arrival.\"\n        "
  else
    "\n    - Original (neutral): \"The weather today is mild.\"\n      Generated (neutral): \"The current weather conditions are mild, characterized by moderate temperatures and low humidity. This equilibrium supports a variety of daily activities, from outdoor errands to indoor pursuits, without the discomfort of extremes. Light cloud cover provides intermittent shade, and a subtle breeze maintains comfort levels. Overall, it presents an unremarkable yet conducive environment for routine proceedings.\"\n        "

/-- The generation instruction assembled by generate_sentiment_aligned_text
after style normalization: in the ELI10 branch, base instructions, flair,
the sentiment-keyed extra flair, and the ELI10 exemplars; otherwise base
instructions, the formal extra flair, and the Normal exemplars; followed in
both branches by the original prompt as the final section. -/
def build_generation_prompt (sentiment original_prompt : String) (word_count : Nat)
    (style_mode : String) : String :=
  (if normalize_style style_mode = "ELI10" then
    base_instructions sentiment word_count ++ eli10_flair ++ " - " ++ eli10_extra_flair sentiment ++ "\n\nExamples:\n" ++ get_eli10_examples sentiment
  else
    base_instructions sentiment word_count ++ normal_extra_flair ++ "\n\nExamples:\n" ++ get_normal_examples sentiment)
  ++ "\nOriginal Prompt: " ++ original_prompt

/-- One invocation of the body of generate_sentiment_aligned_text (the
function the retry decorator wraps), given the oracle for the remote model.
Returns the value together with the number of remote calls issued by this
invocation. The try block raises ValueError on an empty trimmed response;
that and every other exception (including the API call raising) is caught
by the catch-all except clause, which returns the fixed fallback string;
hence the body never raises. -/
def generate_body (sentiment original_prompt : String) (word_count : Nat)
    (style_mode : String) (oracle : String → Nat → GenOutcome) (i : Nat) :
    Except Unit (String × Nat) :=
  match oracle (build_generation_prompt sentiment original_prompt word_count style_mode) i with
  | GenOutcome.apiError => Except.ok ("Generation failed. Please try again.", 1)
  | GenOutcome.response t =>
    if pyStrip t = "" then
      Except.ok ("Generation failed. Please try again.", 1)
    else
      Except.ok (pyStrip t, 1)

/-- generate_sentiment_aligned_text as seen by the caller: the body wrapped
in the tenacity retry decorator. The result pairs the outcome of the
decorated call with the number of attempts the decorator made. -/
def generate_sentiment_aligned_text (sentiment original_prompt : String)
    (word_count : Nat) (style_mode : String) (oracle : String → Nat → GenOutcome) :
    Except Unit (String × Nat) × Nat :=
  retryCall (generate_body sentiment original_prompt word_count style_mode oracle) 0 stop_after_attempt

/-- A transient failure of the remote classification call, as the claims
describe it: the call raises, or the response is empty after trimming, or
its text fails to parse as JSON, or it parses to a non-object. -/
def classifyCallFailed (o : ClassifyOutcome) : Prop :=
  o = ClassifyOutcome.apiError ∨
    ∃ t p, o = ClassifyOutcome.response t p ∧
      (pyStrip t = "" ∨ p = ParsedJson.decodeError ∨ p = ParsedJson.nonObject)

/-- A transient failure of the remote generation call: the call raises, or
the response is empty after trimming. -/
def genCallFailed (o : GenOutcome) : Prop :=
  o = GenOutcome.apiError ∨ ∃ t, o = GenOutcome.response t ∧ pyStrip t = ""

theorem retryCall_of_ok {α : Type} (op : Nat → Except Unit α) (a : α)
    (h : op 0 = Except.ok a) : retryCall op 0 stop_after_attempt = (Except.ok a, 1) := by
  show retryCall op 0 (Nat.succ 2) = (Except.ok a, 1)
  simp [retryCall, h]

theorem get_sentiment_body_isOk (text : String) (oracle : String → Nat → ClassifyOutcome)
    (i : Nat) : ∃ v c, get_sentiment_body text oracle i = Except.ok (v, c) := by
  unfold get_sentiment_body
  split
  · exact ⟨_, _, rfl⟩
  · cases oracle (sentiment_prompt text) i with
    | apiError => exact ⟨_, _, rfl⟩
    | response rtext parsed =>
      by_cases hrt : pyStrip rtext = ""
      · simp only [hrt, if_pos]
        exact ⟨_, _, rfl⟩
      · simp only [hrt, if_neg, if_false]
        cases parsed with
        | decodeError => exact ⟨_, _, rfl⟩
        | nonObject => exact ⟨_, _, rfl⟩
        | obj o =>
          cases o with
          | none => exact ⟨_, _, rfl⟩
          | some s => exact ⟨_, _, rfl⟩

theorem get_sentiment_body_short (text : String) (oracle : String → Nat → ClassifyOutcome)
    (i : Nat) (h : (pyStrip text).length < 3) :
    get_sentiment_body text oracle i = Except.ok ("neutral", 0) := by
  simp [get_sentiment_body, h]

theorem get_sentiment_body_failed (text : String) (oracle : String → Nat → ClassifyOutcome)
    (i : Nat) (h3 : ¬ (pyStrip text).length < 3)
    (hf : classifyCallFailed (oracle (sentiment_prompt text) i)) :
    get_sentiment_body text oracle i = Except.ok ("neutral", 1) := by
  rcases hf with h | ⟨t, p, ht, hcase⟩
  · simp [get_sentiment_body, h3, h]
  · rcases hcase with he | hp | hp
    · simp [get_sentiment_body, h3, ht, he]
    · simp [get_sentiment_body, h3, ht, hp]
    · simp [get_sentiment_body, h3, ht, hp]

theorem generate_body_isOk (sentiment original_prompt : String) (word_count : Nat)
    (style_mode : String) (oracle : String → Nat → GenOutcome) (i : Nat) :
    ∃ v c, generate_body sentiment original_prompt word_count style_mode oracle i
      = Except.ok (v, c) := by
  unfold generate_body
  cases oracle (build_generation_prompt sentiment original_prompt word_count style_mode) i with
  | apiError => exact ⟨_, _, rfl⟩
  | response t =>
    by_cases hrt : pyStrip t = ""
    · simp only [hrt, if_pos]
      exact ⟨_, _, rfl⟩
    · simp only [hrt, if_neg, if_false]
      exact ⟨_, _, rfl⟩

theorem generate_total (sentiment original_prompt : String) (word_count : Nat)
    (style_mode : String) (oracle : String → Nat → GenOutcome) :
    ∃ v c, generate_sentiment_aligned_text sentiment original_prompt word_count style_mode oracle
      = (Except.ok (v, c), 1) := by
  obtain ⟨v, c, h⟩ := generate_body_isOk sentiment original_prompt word_count style_mode oracle 0
  exact ⟨v, c, retryCall_of_ok _ _ h⟩

/-- C1 counterexample: the claim says any unrecognized sentiment value in
the parsed response is coerced to "neutral", but on a parsed response whose
sentiment field is "JOYFUL" the classifier returns "joyful", which is none
of the three labels. -/
theorem classify_unrecognized_label_counterexample :
    get_sentiment "I love exploring new cities!"
      (fun _ _ => ClassifyOutcome.response "\x7b\"sentiment\": \"JOYFUL\"\x7d"
        (ParsedJson.obj (some "JOYFUL")))
      = (Except.ok ("joyful", 1), 1)
    ∧ ¬ ("joyful" = "positive" ∨ "joyful" = "negative" ∨ "joyful" = "neutral") :=
  ⟨rfl, by decide⟩

/-- C1 (amended): a missing sentiment field in the parsed response is
coerced to "neutral" rather than propagated as an error; a present
sentiment value is returned lowercased as-is, even when it lies outside the
three-label enumeration (that enumeration is imposed only through the
response schema sent with the remote call). -/
theorem classify_sentiment_field_handling (text rt : String)
    (oracle : String → Nat → ClassifyOutcome)
    (h3 : ¬ (pyStrip text).length < 3) (hrt : ¬ pyStrip rt = "") :
    (oracle (sentiment_prompt text) 0 = ClassifyOutcome.response rt (ParsedJson.obj none) →
      get_sentiment text oracle = (Except.ok ("neutral", 1), 1))
    ∧ ∀ s, oracle (sentiment_prompt text) 0 = ClassifyOutcome.response rt (ParsedJson.obj (some s)) →
      get_sentiment text oracle = (Except.ok (pyLower s, 1), 1) := by
  constructor
  · intro hresp
    have hb : get_sentiment_body text oracle 0 = Except.ok ("neutral", 1) := by
      simp [get_sentiment_body, h3, hresp, hrt]
    exact retryCall_of_ok _ _ hb
  · intro s hresp
    have hb : get_sentiment_body text oracle 0 = Except.ok (pyLower s, 1) := by
      simp [get_sentiment_body, h3, hresp, hrt]
    exact retryCall_of_ok _ _ hb

/-- Witness for the amended C1 theorem at concrete inputs: a response whose
object lacks the sentiment field yields "neutral"; a response carrying the
out-of-enumeration value "Mixed" yields "mixed". -/
theorem classify_sentiment_field_handling_witness :
    get_sentiment "Nice trip" (fun _ _ => ClassifyOutcome.response "\x7b\x7d" (ParsedJson.obj none))
      = (Except.ok ("neutral", 1), 1)
    ∧ get_sentiment "Nice trip"
        (fun _ _ => ClassifyOutcome.response "\x7b\"sentiment\": \"Mixed\"\x7d"
          (ParsedJson.obj (some "Mixed")))
      = (Except.ok ("mixed", 1), 1) :=
  ⟨(classify_sentiment_field_handling "Nice trip" "\x7b\x7d"
      (fun _ _ => ClassifyOutcome.response "\x7b\x7d" (ParsedJson.obj none))
      (by decide) (by decide)).1 rfl,
   (classify_sentiment_field_handling "Nice trip" "\x7b\"sentiment\": \"Mixed\"\x7d"
      (fun _ _ => ClassifyOutcome.response "\x7b\"sentiment\": \"Mixed\"\x7d"
        (ParsedJson.obj (some "Mixed")))
      (by decide) (by decide)).2 "Mixed" rfl⟩

/-- C2 (code bug evaluation): with the remote classification call raising on
every attempt, get_sentiment returns "neutral" after a single attempt, and
with the remote generation call raising on every attempt,
generate_sentiment_aligned_text returns the fallback string after a single
attempt: because each function body catches every exception internally, the
retry decorator never observes a failure, so the configured
stop_after_attempt(3) bound is never reached. -/
theorem retry_decorator_never_fires :
    get_sentiment "I love exploring new cities!" (fun _ _ => ClassifyOutcome.apiError)
      = (Except.ok ("neutral", 1), 1)
    ∧ generate_sentiment_aligned_text "positive" "I love exploring new cities!" 200 "ELI10"
        (fun _ _ => GenOutcome.apiError)
      = (Except.ok ("Generation failed. Please try again.", 1), 1)
    ∧ ¬ (1 : Nat) = stop_after_attempt :=
  ⟨rfl, rfl, by decide⟩

/-- C4: whenever every remote classification attempt fails (API error,
empty response, or a response that fails to parse), get_sentiment does not
raise to its caller and returns "neutral" once the failure persists past
all attempts the wrapper makes. -/
theorem classify_parse_failure_returns_neutral (text : String)
    (oracle : String → Nat → ClassifyOutcome)
    (hf : ∀ i, classifyCallFailed (oracle (sentiment_prompt text) i)) :
    ∃ c, get_sentiment text oracle = (Except.ok ("neutral", c), 1) := by
  by_cases h3 : (pyStrip text).length < 3
  · exact ⟨0, retryCall_of_ok _ _ (get_sentiment_body_short text oracle 0 h3)⟩
  · exact ⟨1, retryCall_of_ok _ _ (get_sentiment_body_failed text oracle 0 h3 (hf 0))⟩

/-- Witness for the C4 theorem: a remote call that always raises makes the
classifier return "neutral" without an exception. -/
theorem classify_parse_failure_returns_neutral_witness :
    ∃ c, get_sentiment "It was broken" (fun _ _ => ClassifyOutcome.apiError)
      = (Except.ok ("neutral", c), 1) :=
  classify_parse_failure_returns_neutral "It was broken" (fun _ _ => ClassifyOutcome.apiError)
    (fun _ => Or.inl rfl)

/-- C5: for every input text whose trimmed length is less than 3
characters, get_sentiment returns "neutral" with zero remote model calls
issued, whatever the remote model would have answered. -/
theorem classify_short_input_no_remote_call (text : String)
    (oracle : String → Nat → ClassifyOutcome) (h : (pyStrip text).length < 3) :
    get_sentiment text oracle = (Except.ok ("neutral", 0), 1) :=
  retryCall_of_ok _ _ (get_sentiment_body_short text oracle 0 h)

/-- Witness for the C5 theorem at the one-character input "a". -/
theorem classify_short_input_no_remote_call_witness :
    (pyStrip "a").length < 3
    ∧ get_sentiment "a" (fun _ _ => ClassifyOutcome.apiError) = (Except.ok ("neutral", 0), 1) :=
  ⟨by decide,
   classify_short_input_no_remote_call "a" (fun _ _ => ClassifyOutcome.apiError) (by decide)⟩

/-- C6: for every structured response whose sentiment field is one of the
three enumerated values in any letter casing, get_sentiment returns that
value lowercased. -/
theorem classify_valid_label_lowercased (text rt s : String)
    (oracle : String → Nat → ClassifyOutcome)
    (h3 : ¬ (pyStrip text).length < 3)
    (hresp : oracle (sentiment_prompt text) 0
      = ClassifyOutcome.response rt (ParsedJson.obj (some s)))
    (hrt : ¬ pyStrip rt = "")
    (henum : pyLower s = "positive" ∨ pyLower s = "negative" ∨ pyLower s = "neutral") :
    get_sentiment text oracle = (Except.ok (pyLower s, 1), 1) := by
  have hb : get_sentiment_body text oracle 0 = Except.ok (pyLower s, 1) := by
    simp [get_sentiment_body, h3, hresp, hrt]
  exact retryCall_of_ok _ _ hb

/-- Witness for the C6 theorem: the mixed-case field value "Positive" is
returned as "positive". -/
theorem classify_valid_label_lowercased_witness :
    get_sentiment "Great day!"
      (fun _ _ => ClassifyOutcome.response "\x7b\"sentiment\": \"Positive\"\x7d"
        (ParsedJson.obj (some "Positive")))
      = (Except.ok ("positive", 1), 1) :=
  classify_valid_label_lowercased "Great day!" "\x7b\"sentiment\": \"Positive\"\x7d" "Positive"
    (fun _ _ => ClassifyOutcome.response "\x7b\"sentiment\": \"Positive\"\x7d"
      (ParsedJson.obj (some "Positive")))
    (by decide) rfl (by decide) (Or.inl (by decide))

/-- C3: generate_sentiment_aligned_text never raises to the caller: for any
oracle the decorated call returns a value (in one attempt); when the remote
call succeeds with text that is non-empty after trimming, the returned
value is that trimmed, non-empty text; when the response is empty after
trimming it is treated as a failure yielding the fallback; and when every
attempt fails, the returned value equals exactly the fixed string
"Generation failed. Please try again.". -/
theorem generate_failure_contract (sentiment original_prompt : String) (word_count : Nat)
    (style_mode : String) (oracle : String → Nat → GenOutcome) :
    (∃ v c, generate_sentiment_aligned_text sentiment original_prompt word_count style_mode oracle
        = (Except.ok (v, c), 1))
    ∧ (∀ t, oracle (build_generation_prompt sentiment original_prompt word_count style_mode) 0
          = GenOutcome.response t → ¬ pyStrip t = "" →
        generate_sentiment_aligned_text sentiment original_prompt word_count style_mode oracle
          = (Except.ok (pyStrip t, 1), 1))
    ∧ (∀ t, oracle (build_generation_prompt sentiment original_prompt word_count style_mode) 0
          = GenOutcome.response t → pyStrip t = "" →
        generate_sentiment_aligned_text sentiment original_prompt word_count style_mode oracle
          = (Except.ok ("Generation failed. Please try again.", 1), 1))
    ∧ ((∀ i, genCallFailed
          (oracle (build_generation_prompt sentiment original_prompt word_count style_mode) i)) →
        generate_sentiment_aligned_text sentiment original_prompt word_count style_mode oracle
          = (Except.ok ("Generation failed. Please try again.", 1), 1)) := by
  refine ⟨generate_total _ _ _ _ _, ?_, ?_, ?_⟩
  · intro t ht hne
    have hb : generate_body sentiment original_prompt word_count style_mode oracle 0
        = Except.ok (pyStrip t, 1) := by
      simp [generate_body, ht, hne]
    exact retryCall_of_ok _ _ hb
  · intro t ht hts
    have hb : generate_body sentiment original_prompt word_count style_mode oracle 0
        = Except.ok ("Generation failed. Please try again.", 1) := by
      simp [generate_body, ht, hts]
    exact retryCall_of_ok _ _ hb
  · intro hf
    have hb : generate_body sentiment original_prompt word_count style_mode oracle 0
        = Except.ok ("Generation failed. Please try again.", 1) := by
      rcases hf 0 with h | ⟨t, ht, hts⟩
      · simp [generate_body, h]
      · simp [generate_body, ht, hts]
    exact retryCall_of_ok _ _ hb

/-- Witness for the C3 theorem: a successful non-empty response is returned
trimmed, and an always-raising remote call yields exactly the fallback
string. -/
theorem generate_failure_contract_witness :
    generate_sentiment_aligned_text "positive" "hello world" 200 "eli10"
        (fun _ _ => GenOutcome.response "A fine day.")
      = (Except.ok ("A fine day.", 1), 1)
    ∧ generate_sentiment_aligned_text "positive" "hello world" 200 "eli10"
        (fun _ _ => GenOutcome.apiError)
      = (Except.ok ("Generation failed. Please try again.", 1), 1) :=
  ⟨(generate_failure_contract "positive" "hello world" 200 "eli10"
      (fun _ _ => GenOutcome.response "A fine day.")).2.1 "A fine day." rfl (by decide),
   (generate_failure_contract "positive" "hello world" 200 "eli10"
      (fun _ _ => GenOutcome.apiError)).2.2.2 (fun _ => Or.inl rfl)⟩

/-- C7: the inputs "ELI10 (Fun & Emojis)", "eli10" and "ELI10" all normalize
to the canonical playful value "ELI10" and produce the same generation
instruction, while "Normal (Formal)" and "normal" both fail the playful
test and produce the same (formal-branch) generation instruction. -/
theorem style_mode_normalization_equiv :
    normalize_style "ELI10 (Fun & Emojis)" = "ELI10"
    ∧ normalize_style "eli10" = "ELI10"
    ∧ normalize_style "ELI10" = "ELI10"
    ∧ ¬ normalize_style "Normal (Formal)" = "ELI10"
    ∧ ¬ normalize_style "normal" = "ELI10"
    ∧ ∀ sentiment original_prompt word_count,
        build_generation_prompt sentiment original_prompt word_count "ELI10 (Fun & Emojis)"
          = build_generation_prompt sentiment original_prompt word_count "eli10"
        ∧ build_generation_prompt sentiment original_prompt word_count "eli10"
          = build_generation_prompt sentiment original_prompt word_count "ELI10"
        ∧ build_generation_prompt sentiment original_prompt word_count "Normal (Formal)"
          = build_generation_prompt sentiment original_prompt word_count "normal" :=
  ⟨rfl, rfl, rfl, by decide, by decide, fun _ _ _ => ⟨rfl, rfl, rfl⟩⟩

/-- C9: for every sentiment string outside the three labels, both example
banks fall back to their neutral entry, the playful extra-flair selection
uses the neutral variant, and generation completes normally (returns a
value, in one attempt) for any such sentiment. -/
theorem unknown_sentiment_falls_back_to_neutral (s : String)
    (hp : ¬ s = "positive") (hn : ¬ s = "negative") (hz : ¬ s = "neutral") :
    get_eli10_examples s = get_eli10_examples "neutral"
    ∧ get_normal_examples s = get_normal_examples "neutral"
    ∧ eli10_extra_flair s = eli10_extra_flair "neutral"
    ∧ ∀ original_prompt word_count style_mode oracle, ∃ v c,
        generate_sentiment_aligned_text s original_prompt word_count style_mode oracle
          = (Except.ok (v, c), 1) := by
  refine ⟨?_, ?_, ?_, fun o w m oracle => generate_total s o w m oracle⟩
  · simp [get_eli10_examples, hp, hn]
  · simp [get_normal_examples, hp, hn]
  · simp [eli10_extra_flair, hp, hn]

/-- Witness for the C9 theorem at the unrecognized sentiment "joyful". -/
theorem unknown_sentiment_falls_back_to_neutral_witness :
    get_eli10_examples "joyful" = get_eli10_examples "neutral"
    ∧ eli10_extra_flair "joyful" = eli10_extra_flair "neutral"
    ∧ ∃ v c, generate_sentiment_aligned_text "joyful" "x" 200 "ELI10"
        (fun _ _ => GenOutcome.apiError) = (Except.ok (v, c), 1) := by
  have h := unknown_sentiment_falls_back_to_neutral "joyful" (by decide) (by decide) (by decide)
  exact ⟨h.1, h.2.2.1, h.2.2.2 "x" 200 "ELI10" (fun _ _ => GenOutcome.apiError)⟩

/-- C10: every styleMode whose normalization is not exactly "ELI10" --
including arbitrary unrecognized strings and the empty string -- yields the
formal-branch instruction (formal extra flair plus the Normal exemplars),
identical to the instruction for "normal"; and generation is total over
such styleMode strings. -/
theorem non_eli10_style_defaults_to_formal (sentiment original_prompt : String)
    (word_count : Nat) (style_mode : String)
    (h : ¬ normalize_style style_mode = "ELI10") :
    build_generation_prompt sentiment original_prompt word_count style_mode
      = base_instructions sentiment word_count ++ normal_extra_flair ++ "\n\nExamples:\n"
        ++ get_normal_examples sentiment ++ "\nOriginal Prompt: " ++ original_prompt
    ∧ build_generation_prompt sentiment original_prompt word_count style_mode
      = build_generation_prompt sentiment original_prompt word_count "normal"
    ∧ ∀ oracle, ∃ v c,
        generate_sentiment_aligned_text sentiment original_prompt word_count style_mode oracle
          = (Except.ok (v, c), 1) := by
  refine ⟨?_, ?_, fun oracle => generate_total _ _ _ _ oracle⟩
  · simp only [build_generation_prompt, if_neg h]
  · simp only [build_generation_prompt, if_neg h,
      if_neg (show ¬ normalize_style "normal" = "ELI10" by decide)]

/-- Witness for the C10 theorem at the empty style string. -/
theorem non_eli10_style_defaults_to_formal_witness :
    build_generation_prompt "positive" "hello" 200 ""
      = build_generation_prompt "positive" "hello" 200 "normal" :=
  (non_eli10_style_defaults_to_formal "positive" "hello" 200 "" (by decide)).2.1

/-- C8: for every word count, sentiment, style and original text, the
assembled instruction contains the length directive verbatim as
"Exactly N words (±20)" with N the decimal word count, followed later by
the sentiment-and-style-keyed exemplar block, and ends with the original
user text verbatim as the final section introduced by "Original Prompt:". -/
theorem prompt_length_directive_and_section_order (sentiment original_prompt : String)
    (word_count : Nat) (style_mode : String) :
    ∃ A B,
      build_generation_prompt sentiment original_prompt word_count style_mode
        = A ++ ("Exactly " ++ toString word_count ++ " words (±20)") ++ B
          ++ (if normalize_style style_mode = "ELI10" then get_eli10_examples sentiment
              else get_normal_examples sentiment)
          ++ ("\nOriginal Prompt: " ++ original_prompt) := by
  have e1 : (" tone.\n    - Exactly " : String) = " tone.\n    - " ++ "Exactly " := rfl
  have e2 : (" words (±20).\n    - Engaging and natural; structure: Start with a hook related to the prompt, develop 2-3 key ideas, and end with a reflective close.\n    " : String)
      = " words (±20)" ++ ".\n    - Engaging and natural; structure: Start with a hook related to the prompt, develop 2-3 key ideas, and end with a reflective close.\n    " := rfl
  by_cases h : normalize_style style_mode = "ELI10"
  · refine ⟨"\n    Task: Generate a coherent "
        ++ (if word_count < 150 then "paragraph" else "short essay")
        ++ " based on the original prompt.\n    - Strictly maintain " ++ sentiment
        ++ " tone.\n    - ",
      ".\n    - Engaging and natural; structure: Start with a hook related to the prompt, develop 2-3 key ideas, and end with a reflective close.\n    "
        ++ eli10_flair ++ " - " ++ eli10_extra_flair sentiment ++ "\n\nExamples:\n", ?_⟩
    simp only [build_generation_prompt, base_instructions, if_pos h, e1, e2,
      String.append_assoc]
  · refine ⟨"\n    Task: Generate a coherent "
        ++ (if word_count < 150 then "paragraph" else "short essay")
        ++ " based on the original prompt.\n    - Strictly maintain " ++ sentiment
        ++ " tone.\n    - ",
      ".\n    - Engaging and natural; structure: Start with a hook related to the prompt, develop 2-3 key ideas, and end with a reflective close.\n    "
        ++ normal_extra_flair ++ "\n\nExamples:\n", ?_⟩
    simp only [build_generation_prompt, base_instructions, if_neg h, e1, e2,
      String.append_assoc]
